import Mathlib

/-
Verification of the deployment orchestration core of the tubular repository
(tubular/asgard.py) against its natural-language specification.

Shallow embedding: every backend interaction of asgard.py (HTTP requests to
the Asgard API, the ec2 collaborator functions, the clock) is resolved by an
explicit environment `Env`.  Each embedded function returns a pair
`Except Err a × List Ev`: the Python return value or raised exception, and the
ordered trace of outward calls the function performed.  Time is modelled
discretely: inside `wait_for_task_completion` the k-th poll of a task happens
k seconds after the call started (the loop body sleeps exactly 1 second after
every non-terminal poll and the requests themselves are instantaneous), so the
guard `end_time > datetime.utcnow()` of the source becomes `k < timeout`.
-/

namespace Tubular

/-- Error kinds of the exception collaborator module: `BackendDataError`,
`BackendError`, `TimeoutException`, plus a catch-all for other Python
exceptions (for example the IndexError of an empty-list `[-1]` access). -/
inductive Err where
  | backendData (msg : String)
  | backend (msg : String)
  | timedOut (msg : String)
  | generic (msg : String)
deriving Repr, DecidableEq

/-- The dynamic argument passed to `disable_asg`: the source sometimes passes a
single ASG name (rollback paths) and sometimes a whole list of ASG names (the
retirement loop iterates `existing_clusters.iteritems()` whose values are
lists). -/
inductive NameArg where
  | one (s : String)
  | many (l : List String)
deriving Repr, DecidableEq

/-- The part of a decoded task-status payload that asgard.py reads: the
`status` field and the `log` field. -/
structure TaskStatus where
  status : String
  log : String
deriving Repr, DecidableEq

/-- Outward calls performed by asgard.py, recorded in traces. -/
inductive Ev where
  | clusterList
  | clusterShowReq (cluster : String)
  | createReq (cluster : String) (ami : String)
  | statusReq (url : String)
  | enableReq (asg : String)
  | disableReq (arg : NameArg)
  | asgInfoReq (asg : String)
  | waitInService (asgs : List String)
  | waitElbs (elbs : List String)
deriving Repr, DecidableEq

/-- One record of the `/cluster/list.json` payload; a field is `none` when the
corresponding JSON key is absent (asgard.py checks for both keys). -/
structure RawCluster where
  cluster : Option String
  autoScalingGroups : Option (List String)
deriving Repr, DecidableEq

/-- The environment resolving every outward interaction of asgard.py:
backend payloads, the task-status stream per task URL and poll index, and the
outcomes of the ec2 collaborator calls (which live outside this module). -/
structure Env where
  clusterListing : List RawCluster
  clusterShow : String → List (Option String)
  createUrl : String → String → String
  enableUrl : String → String
  disableUrl : NameArg → String
  pollStatus : String → Nat → TaskStatus
  asgLoadBalancers : String → Except Err (List String)
  edcForAmi : String → String
  asgsForEdc : String → List String
  inService : List String → Int → Except Err Unit
  healthyElbs : List String → Int → Except Err Unit

/-- Result of an embedded function: the Python return value or raised
exception, together with the ordered trace of outward calls. -/
abbrev Res (α : Type) := Except Err α × List Ev

/-- Module-level default wait timeout (`ASGARD_WAIT_TIMEOUT`), 300 seconds. -/
def ASGARD_WAIT_TIMEOUT : Int := 300

/-- Source line 127: append ".json" to the task URL unless the URL already
ends with it (the endswith test is expressed on the character list). -/
def normTaskUrl (task_url : String) : String :=
  if (".json").data.isSuffixOf task_url.data then task_url
  else task_url ++ ".json"

/-- Message of the TimeoutException raised by `wait_for_task_completion`. -/
def timeoutMsg (url : String) : String :=
  "Timedout while waiting for task " ++ url

/-- A task status on which the polling loop stops. -/
def terminalStatus (st : TaskStatus) : Prop :=
  st.status = "completed" ∨ st.status = "failed"

instance (st : TaskStatus) : Decidable (terminalStatus st) :=
  inferInstanceAs (Decidable (_ ∨ _))

/-- The polling loop of `wait_for_task_completion`.  `fuel` is the number of
remaining loop iterations (`timeout - elapsed`), `k` the index of the next
poll; iteration k runs at second k, so the guard `end_time > utcnow` holds
exactly when fuel is positive. -/
def pollLoop (env : Env) (url : String) : Nat → Nat → Res TaskStatus
  | 0, _ => (Except.error (Err.timedOut (timeoutMsg url)), [])
  | fuel + 1, k =>
    let st := env.pollStatus url k
    if terminalStatus st then
      (Except.ok st, [Ev.statusReq url])
    else
      let r := pollLoop env url fuel (k + 1)
      (r.1, Ev.statusReq url :: r.2)

/-- Embedding of `wait_for_task_completion(task_url, timeout)`. -/
def wait_for_task_completion (env : Env) (task_url : String) (timeout : Int) :
    Res TaskStatus :=
  pollLoop env (normTaskUrl task_url) timeout.toNat 0

/-- Embedding of `asgs_for_cluster`: the mapping over the decoded record list;
`none` stands for a record without the autoScalingGroupName key (the source
catches the resulting KeyError/TypeError and raises BackendDataError; the
payload dump appended by the source message is omitted here). -/
def extractAsgNames : List (Option String) → Option (List String)
  | [] => some []
  | none :: _ => none
  | some n :: rest => (extractAsgNames rest).map (fun l => n :: l)

def asgs_for_cluster (env : Env) (cluster : String) : Res (List String) :=
  match extractAsgNames (env.clusterShow cluster) with
  | none =>
    (Except.error (Err.backendData
      "Expected a list of dicts with an autoScalingGroupName attribute."),
     [Ev.clusterShowReq cluster])
  | some names => (Except.ok names, [Ev.clusterShowReq cluster])

/-- Python dict assignment `relevant_clusters[name] = groups`: overwrite the
value of an existing key in place, otherwise append. -/
def dictInsert (m : List (String × List String)) (k : String)
    (v : List String) : List (String × List String) :=
  match m with
  | [] => [(k, v)]
  | (k0, v0) :: rest =>
    if k0 = k then (k0, v) :: rest else (k0, v0) :: dictInsert rest k v

/-- The loop of `clusters_for_asgs`: check both keys of every record, and add
a record whose ASG list meets the requested set (the source breaks out of the
inner membership scan at the first hit, observationally `List.any`). -/
def clustersLoop (asgs : List String) :
    List RawCluster → List (String × List String) →
    Except Err (List (String × List String))
  | [], acc => Except.ok acc
  | c :: rest, acc =>
    match c.cluster, c.autoScalingGroups with
    | some name, some groups =>
      if groups.any (fun a => asgs.contains a) then
        clustersLoop asgs rest (dictInsert acc name groups)
      else
        clustersLoop asgs rest acc
    | _, _ =>
      Except.error (Err.backendData
        "Expected cluster and autoScalingGroups keys in dict")

/-- Embedding of `clusters_for_asgs(asgs)`: one GET of the full cluster
listing, then the filtering loop. -/
def clusters_for_asgs (env : Env) (asgs : List String) :
    Res (List (String × List String)) :=
  (clustersLoop asgs env.clusterListing [], [Ev.clusterList])

/-- Embedding of `new_asg(cluster, ami_id)`: POST the create request, await
the task, raise BackendError when the task reports failed, otherwise re-query
the cluster ASG list and return its last entry (an empty list would raise
IndexError in the source). -/
def new_asg (env : Env) (cluster ami_id : String) : Res String :=
  let r := wait_for_task_completion env (env.createUrl cluster ami_id)
    ASGARD_WAIT_TIMEOUT
  match r.1 with
  | Except.error e => (Except.error e, Ev.createReq cluster ami_id :: r.2)
  | Except.ok st =>
    if st.status = "failed" then
      (Except.error (Err.backend
        ("Failure during new ASG creation. Task Log: \n" ++ st.log)),
       Ev.createReq cluster ami_id :: r.2)
    else
      let q := asgs_for_cluster env cluster
      match q.1 with
      | Except.error e =>
        (Except.error e, Ev.createReq cluster ami_id :: (r.2 ++ q.2))
      | Except.ok names =>
        match names.getLast? with
        | some last =>
          (Except.ok last, Ev.createReq cluster ami_id :: (r.2 ++ q.2))
        | none =>
          (Except.error (Err.generic "IndexError: list index out of range"),
           Ev.createReq cluster ami_id :: (r.2 ++ q.2))

/-- Embedding of `enable_asg(asg)`: POST activate, await the task within 301
seconds, raise BackendError when the task reports failed. -/
def enable_asg (env : Env) (asg : String) : Res Unit :=
  let r := wait_for_task_completion env (env.enableUrl asg) 301
  match r.1 with
  | Except.error e => (Except.error e, Ev.enableReq asg :: r.2)
  | Except.ok st =>
    if st.status = "failed" then
      (Except.error (Err.backend
        ("Failure while enabling ASG. Task Log: \n" ++ st.log)),
       Ev.enableReq asg :: r.2)
    else (Except.ok (), Ev.enableReq asg :: r.2)

/-- Embedding of `disable_asg(asg)`: POST deactivate, await the task within
300 seconds, raise BackendError when the task reports failed.  The argument is
whatever Python value the caller passed (a name or a list of names). -/
def disable_asg (env : Env) (arg : NameArg) : Res Unit :=
  let r := wait_for_task_completion env (env.disableUrl arg) 300
  match r.1 with
  | Except.error e => (Except.error e, Ev.disableReq arg :: r.2)
  | Except.ok st =>
    if st.status = "failed" then
      (Except.error (Err.backend
        ("Failure while disabling ASG. Task Log: \n" ++ st.log)),
       Ev.disableReq arg :: r.2)
    else (Except.ok (), Ev.disableReq arg :: r.2)

/-- The deactivation call of `disable_asg` succeeded. -/
def disableOk (env : Env) (arg : NameArg) : Prop :=
  (disable_asg env arg).1 = Except.ok ()

/-- CREATE loop of `deploy`: call `new_asg` for every cluster key in order; a
bare `raise` on failure re-raises the same exception and stops the loop (the
already-created ASGs are only logged). -/
def createLoop (env : Env) (ami_id : String) :
    List String → Res (List (String × String))
  | [] => (Except.ok [], [])
  | c :: rest =>
    let r := new_asg env c ami_id
    match r.1 with
    | Except.error e => (Except.error e, r.2)
    | Except.ok name =>
      let s := createLoop env ami_id rest
      match s.1 with
      | Except.error e => (Except.error e, r.2 ++ s.2)
      | Except.ok tail => (Except.ok ((c, name) :: tail), r.2 ++ s.2)

/-- Body of the ACTIVATE loop for one new ASG: `enable_asg(asg)` followed by
the GET of the ASG info whose loadBalancerNames are collected. -/
def activate_step (env : Env) (asg : String) : Res (List String) :=
  let r := enable_asg env asg
  match r.1 with
  | Except.error e => (Except.error e, r.2)
  | Except.ok _ =>
    match env.asgLoadBalancers asg with
    | Except.error e => (Except.error e, r.2 ++ [Ev.asgInfoReq asg])
    | Except.ok elbs => (Except.ok elbs, r.2 ++ [Ev.asgInfoReq asg])

/-- ACTIVATE loop of `deploy`: on any failure of the step, `disable_asg` that
specific ASG and re-raise; when the deactivation itself raises, that new
exception propagates instead.  On success the collected load-balancer names
are concatenated in iteration order (`elbs_to_monitor.extend`). -/
def activateLoop (env : Env) :
    List (String × String) → Res (List String)
  | [] => (Except.ok [], [])
  | (_, asg) :: rest =>
    let r := activate_step env asg
    match r.1 with
    | Except.error e =>
      let d := disable_asg env (NameArg.one asg)
      match d.1 with
      | Except.error e2 => (Except.error e2, r.2 ++ d.2)
      | Except.ok _ => (Except.error e, r.2 ++ d.2)
    | Except.ok elbs =>
      let s := activateLoop env rest
      match s.1 with
      | Except.error e => (Except.error e, r.2 ++ s.2)
      | Except.ok more => (Except.ok (elbs ++ more), r.2 ++ s.2)

/-- Rollback loop run when the ELB health gate failed: `disable_asg` every new
ASG (single name each); a failing deactivation propagates immediately. -/
def rollbackLoop (env : Env) : List (String × String) → Res Unit
  | [] => (Except.ok (), [])
  | (_, asg) :: rest =>
    let d := disable_asg env (NameArg.one asg)
    match d.1 with
    | Except.error e => (Except.error e, d.2)
    | Except.ok _ =>
      let s := rollbackLoop env rest
      (s.1, d.2 ++ s.2)

/-- RETIRE loop of `deploy`: `for cluster,asg in existing_clusters.iteritems():
disable_asg(asg)` — the iterated values are the clusters' full old-ASG name
lists, so each `disable_asg` call receives a whole list. -/
def retireLoop (env : Env) : List (String × List String) → Res Unit
  | [] => (Except.ok (), [])
  | (_, asgList) :: rest =>
    let d := disable_asg env (NameArg.many asgList)
    match d.1 with
    | Except.error e => (Except.error e, d.2)
    | Except.ok _ =>
      let s := retireLoop env rest
      (s.1, d.2 ++ s.2)

/-- Embedding of `deploy(ami_id)`: discovery, CREATE loop, instance health
gate (ec2.wait_for_in_service, 300 s), ACTIVATE loop, ELB health gate
(ec2.wait_for_healthy_elbs, 600 s) with rollback of all new ASGs on failure,
then retirement of the old ASGs.  Python dict iteration order is modelled as
insertion order throughout. -/
def deploy (env : Env) (ami_id : String) : Res Unit :=
  let asgs := env.asgsForEdc (env.edcForAmi ami_id)
  let dc := clusters_for_asgs env asgs
  match dc.1 with
  | Except.error e => (Except.error e, dc.2)
  | Except.ok existing_clusters =>
    let cl := createLoop env ami_id (existing_clusters.map Prod.fst)
    match cl.1 with
    | Except.error e => (Except.error e, dc.2 ++ cl.2)
    | Except.ok new_asgs =>
      let names := new_asgs.map Prod.snd
      let t0 := dc.2 ++ cl.2 ++ [Ev.waitInService names]
      match env.inService names 300 with
      | Except.error e => (Except.error e, t0)
      | Except.ok _ =>
        let al := activateLoop env new_asgs
        match al.1 with
        | Except.error e => (Except.error e, t0 ++ al.2)
        | Except.ok elbs =>
          let t1 := t0 ++ al.2 ++ [Ev.waitElbs elbs]
          match env.healthyElbs elbs 600 with
          | Except.error e =>
            let rb := rollbackLoop env new_asgs
            match rb.1 with
            | Except.error e2 => (Except.error e2, t1 ++ rb.2)
            | Except.ok _ => (Except.error e, t1 ++ rb.2)
          | Except.ok _ =>
            let rt := retireLoop env existing_clusters
            match rt.1 with
            | Except.error e => (Except.error e, t1 ++ rt.2)
            | Except.ok _ => (Except.ok (), t1 ++ rt.2)

/-- Arguments of the `disable_asg` calls of a trace, in order. -/
def disableCalls (t : List Ev) : List NameArg :=
  t.filterMap (fun e => match e with | Ev.disableReq a => some a | _ => none)

/-- ASG names of the `enable_asg` calls of a trace, in order. -/
def enableCalls (t : List Ev) : List String :=
  t.filterMap (fun e => match e with | Ev.enableReq a => some a | _ => none)

/-- Cluster names of the `new_asg` create requests of a trace, in order. -/
def createCalls (t : List Ev) : List String :=
  t.filterMap (fun e => match e with | Ev.createReq c _ => some c | _ => none)

/-- Environment whose every task poll returns the same status and whose other
components are inert; used to instantiate theorems at concrete inputs. -/
def statusEnv (st : TaskStatus) : Env :=
  { clusterListing := []
    clusterShow := fun _ => []
    createUrl := fun c _ => "create-" ++ c
    enableUrl := fun a => "enable-" ++ a
    disableUrl := fun _ => "deactivate"
    pollStatus := fun _ _ => st
    asgLoadBalancers := fun _ => Except.ok []
    edcForAmi := fun _ => "edc"
    asgsForEdc := fun _ => []
    inService := fun _ _ => Except.ok ()
    healthyElbs := fun _ _ => Except.ok () }

theorem pollLoop_terminal (env : Env) (url : String) (fuel k : Nat)
    (h : terminalStatus (env.pollStatus url k)) :
    pollLoop env url (fuel + 1) k =
      (Except.ok (env.pollStatus url k), [Ev.statusReq url]) := by
  simp [pollLoop, h]

theorem pollLoop_not_terminal (env : Env) (url : String) (fuel k : Nat)
    (h : ¬ terminalStatus (env.pollStatus url k)) :
    pollLoop env url (fuel + 1) k =
      ((pollLoop env url fuel (k + 1)).1,
        Ev.statusReq url :: (pollLoop env url fuel (k + 1)).2) := by
  simp [pollLoop, h]

theorem pollLoop_all_running (env : Env) (url : String) :
    ∀ fuel k, (∀ i, i < fuel → ¬ terminalStatus (env.pollStatus url (k + i))) →
      pollLoop env url fuel k =
        (Except.error (Err.timedOut (timeoutMsg url)),
          List.replicate fuel (Ev.statusReq url))
  | 0, k, _ => by simp [pollLoop]
  | fuel + 1, k, h => by
    have h0 : ¬ terminalStatus (env.pollStatus url k) := by
      have := h 0 (Nat.succ_pos fuel)
      simpa using this
    have ih := pollLoop_all_running env url fuel (k + 1) (fun i hi => by
      have e : k + 1 + i = k + (i + 1) := by omega
      rw [e]
      exact h (i + 1) (by omega))
    rw [pollLoop_not_terminal env url fuel k h0, ih]
    simp [List.replicate_succ]

theorem pollLoop_first_terminal (env : Env) (url : String) :
    ∀ j fuel k, j < fuel →
      (∀ i, i < j → ¬ terminalStatus (env.pollStatus url (k + i))) →
      terminalStatus (env.pollStatus url (k + j)) →
      pollLoop env url fuel k =
        (Except.ok (env.pollStatus url (k + j)),
          List.replicate (j + 1) (Ev.statusReq url)) := by
  intro j
  induction j with
  | zero =>
    intro fuel k hj hb ht
    obtain ⟨f, rfl⟩ : ∃ f, fuel = f + 1 := ⟨fuel - 1, by omega⟩
    simpa using pollLoop_terminal env url f k (by simpa using ht)
  | succ j ih =>
    intro fuel k hj hb ht
    obtain ⟨f, rfl⟩ : ∃ f, fuel = f + 1 := ⟨fuel - 1, by omega⟩
    have h0 : ¬ terminalStatus (env.pollStatus url k) := by
      have := hb 0 (Nat.succ_pos j)
      simpa using this
    have e1 : k + 1 + j = k + (j + 1) := by omega
    have step := ih f (k + 1) (by omega)
      (fun i hi => by
        have e : k + 1 + i = k + (i + 1) := by omega
        rw [e]
        exact hb (i + 1) (by omega))
      (by rw [e1]; exact ht)
    rw [pollLoop_not_terminal env url f k h0, step, e1]
    simp [List.replicate_succ]

theorem pollLoop_events (env : Env) (url : String) :
    ∀ fuel k e, e ∈ (pollLoop env url fuel k).2 → e = Ev.statusReq url
  | 0, _, _, h => by simp [pollLoop] at h
  | fuel + 1, k, e, h => by
    by_cases ht : terminalStatus (env.pollStatus url k)
    · rw [pollLoop_terminal env url fuel k ht] at h
      simpa using h
    · rw [pollLoop_not_terminal env url fuel k ht] at h
      rcases List.mem_cons.mp h with h | h
      · exact h
      · exact pollLoop_events env url fuel (k + 1) e h

/-- C9: for every timeout at most zero, `wait_for_task_completion` raises the
TimeoutException at once, performing no status request at all — the deadline
`end_time > utcnow` is checked before the first poll, so even a task that is
already terminal is never observed. -/
theorem wait_for_task_completion_nonpos_timeout (env : Env) (task_url : String)
    (timeout : Int) (h : timeout ≤ 0) :
    wait_for_task_completion env task_url timeout =
      (Except.error (Err.timedOut (timeoutMsg (normTaskUrl task_url))), []) := by
  unfold wait_for_task_completion
  rw [Int.toNat_of_nonpos h]
  rfl

/-- Witness for C9: timeout 0 over an environment whose task is already
completed at the first poll; the call still times out and issues no request. -/
theorem wait_for_task_completion_nonpos_timeout_witness :
    wait_for_task_completion (statusEnv { status := "completed", log := "" })
        "task-42" 0 =
      (Except.error (Err.timedOut (timeoutMsg (normTaskUrl "task-42"))), []) :=
  wait_for_task_completion_nonpos_timeout
    (statusEnv { status := "completed", log := "" }) "task-42" 0 (by decide)

/-- C4: behaviour of `wait_for_task_completion`.  Poll k of the normalized
URL happens k seconds after the call began (1-second sleep between polls).
First conjunct: when the first terminal status (completed or failed) appears
at poll k before the deadline, the call returns exactly that decoded payload
after k+1 status requests.  Second conjunct: when no poll before the deadline
sees a terminal status, the call raises the TimeoutException after exactly
`timeout.toNat` status requests — the deadline is absolute and never
extended (timeout = 2 with a task stuck in running: error after 2 polls,
about 2 seconds). -/
theorem wait_for_task_completion_spec (env : Env) (task_url : String)
    (timeout : Int) :
    (∀ k, k < timeout.toNat →
      (∀ j, j < k → ¬ terminalStatus (env.pollStatus (normTaskUrl task_url) j)) →
      terminalStatus (env.pollStatus (normTaskUrl task_url) k) →
      wait_for_task_completion env task_url timeout =
        (Except.ok (env.pollStatus (normTaskUrl task_url) k),
          List.replicate (k + 1) (Ev.statusReq (normTaskUrl task_url)))) ∧
    ((∀ j, j < timeout.toNat →
        ¬ terminalStatus (env.pollStatus (normTaskUrl task_url) j)) →
      wait_for_task_completion env task_url timeout =
        (Except.error (Err.timedOut (timeoutMsg (normTaskUrl task_url))),
          List.replicate timeout.toNat (Ev.statusReq (normTaskUrl task_url)))) := by
  constructor
  · intro k hk hb ht
    unfold wait_for_task_completion
    have := pollLoop_first_terminal env (normTaskUrl task_url) k timeout.toNat 0
      hk (fun i hi => by simpa using hb i hi) (by simpa using ht)
    simpa using this
  · intro hb
    unfold wait_for_task_completion
    exact pollLoop_all_running env (normTaskUrl task_url) timeout.toNat 0
      (fun i hi => by simpa using hb i hi)

/-- Witness for C4: the documented example — timeout 2 seconds, status always
running — raises the TimeoutException after exactly two status requests. -/
theorem wait_for_task_completion_spec_witness :
    wait_for_task_completion (statusEnv { status := "running", log := "" })
        "task-42" 2 =
      (Except.error (Err.timedOut (timeoutMsg (normTaskUrl "task-42"))),
        List.replicate 2 (Ev.statusReq (normTaskUrl "task-42"))) :=
  (wait_for_task_completion_spec (statusEnv { status := "running", log := "" })
      "task-42" 2).2
    (by intro j hj; simp [terminalStatus, statusEnv])

theorem new_asg_events (env : Env) (cluster ami_id : String) (st : TaskStatus)
    (t : List Ev)
    (h : wait_for_task_completion env (env.createUrl cluster ami_id)
      ASGARD_WAIT_TIMEOUT = (Except.ok st, t))
    (e : Ev) (he : e ∈ t) :
    e = Ev.statusReq (normTaskUrl (env.createUrl cluster ami_id)) := by
  have h' : pollLoop env (normTaskUrl (env.createUrl cluster ami_id))
      ASGARD_WAIT_TIMEOUT.toNat 0 = (Except.ok st, t) := h
  have := pollLoop_events env (normTaskUrl (env.createUrl cluster ami_id))
    ASGARD_WAIT_TIMEOUT.toNat 0 e (by rw [h']; exact he)
  exact this

/-- C5: behaviour of `new_asg`.  First conjunct: when the creation task
completes with status failed and log L, `new_asg` raises a BackendError whose
message is the fixed text followed by L (so it contains L), and its trace
contains no query of the cluster ASG list.  Second conjunct: on the success
path the returned name is exactly the last entry of the re-queried cluster
ASG list. -/
theorem new_asg_spec (env : Env) (cluster ami_id : String) :
    (∀ st t,
      wait_for_task_completion env (env.createUrl cluster ami_id)
          ASGARD_WAIT_TIMEOUT = (Except.ok st, t) →
      st.status = "failed" →
      (new_asg env cluster ami_id).1 =
        Except.error (Err.backend
          ("Failure during new ASG creation. Task Log: \n" ++ st.log)) ∧
      Ev.clusterShowReq cluster ∉ (new_asg env cluster ami_id).2) ∧
    (∀ st t names tq last,
      wait_for_task_completion env (env.createUrl cluster ami_id)
          ASGARD_WAIT_TIMEOUT = (Except.ok st, t) →
      ¬ st.status = "failed" →
      asgs_for_cluster env cluster = (Except.ok names, tq) →
      names.getLast? = some last →
      (new_asg env cluster ami_id).1 = Except.ok last) := by
  constructor
  · intro st t h hfail
    constructor
    · simp [new_asg, h, hfail]
    · have hshape : (new_asg env cluster ami_id).2 =
          Ev.createReq cluster ami_id :: t := by
        simp [new_asg, h, hfail]
      rw [hshape]
      intro hmem
      rcases List.mem_cons.mp hmem with hc | hc
      · exact Ev.noConfusion hc
      · exact Ev.noConfusion (new_asg_events env cluster ami_id st t h _ hc)
  · intro st t names tq last h hok hq hlast
    simp [new_asg, h, hok, hq, hlast]

/-- Witness for C5: a creation task reporting failed with log "boom" — the
raised BackendError message ends with "boom" and the cluster ASG list is
never queried. -/
theorem new_asg_spec_witness :
    (new_asg (statusEnv { status := "failed", log := "boom" })
        "edx-edxapp" "ami-1").1 =
      Except.error (Err.backend
        ("Failure during new ASG creation. Task Log: \n" ++ "boom")) ∧
    Ev.clusterShowReq "edx-edxapp" ∉
      (new_asg (statusEnv { status := "failed", log := "boom" })
        "edx-edxapp" "ami-1").2 :=
  (new_asg_spec (statusEnv { status := "failed", log := "boom" })
      "edx-edxapp" "ami-1").1
    { status := "failed", log := "boom" }
    [Ev.statusReq (normTaskUrl ((statusEnv { status := "failed", log := "boom" }).createUrl "edx-edxapp" "ami-1"))]
    (pollLoop_terminal (statusEnv { status := "failed", log := "boom" })
      (normTaskUrl ((statusEnv { status := "failed", log := "boom" }).createUrl "edx-edxapp" "ami-1"))
      299 0 (Or.inr rfl))
    rfl

theorem dictInsert_fresh (m : List (String × List String)) (k : String)
    (v : List String) (h : k ∉ m.map Prod.fst) :
    dictInsert m k v = m ++ [(k, v)] := by
  induction m with
  | nil => rfl
  | cons p rest ih =>
    obtain ⟨k0, v0⟩ := p
    simp only [List.map_cons, List.mem_cons] at h
    push_neg at h
    simp [dictInsert, Ne.symm h.1, ih h.2]

/-- The record selector implicit in the `clusters_for_asgs` loop: a
well-formed record is kept, paired with its full ASG list, exactly when its
ASG list contains at least one requested name. -/
def selectCluster (asgs : List String) (c : RawCluster) :
    Option (String × List String) :=
  match c.cluster, c.autoScalingGroups with
  | some n, some g =>
    if g.any (fun a => asgs.contains a) then some (n, g) else none
  | _, _ => none

theorem clustersLoop_wellformed (asgs : List String) :
    ∀ (listing : List RawCluster) (acc : List (String × List String)),
      (∀ c ∈ listing, c.cluster ≠ none ∧ c.autoScalingGroups ≠ none) →
      (∀ c ∈ listing, ∀ n, c.cluster = some n → n ∉ acc.map Prod.fst) →
      (listing.filterMap RawCluster.cluster).Nodup →
      clustersLoop asgs listing acc =
        Except.ok (acc ++ listing.filterMap (selectCluster asgs))
  | [], acc, _, _, _ => by simp [clustersLoop]
  | c :: rest, acc, hwf, hfresh, hnd => by
    obtain ⟨hc, hg⟩ := hwf c (List.mem_cons_self c rest)
    obtain ⟨n, hn⟩ := Option.ne_none_iff_exists'.mp hc
    obtain ⟨g, hg'⟩ := Option.ne_none_iff_exists'.mp hg
    have hnd' : (rest.filterMap RawCluster.cluster).Nodup := by
      rw [List.filterMap_cons, hn] at hnd
      exact hnd.of_cons
    have hnotin : n ∉ rest.filterMap RawCluster.cluster := by
      rw [List.filterMap_cons, hn] at hnd
      exact (List.nodup_cons.mp hnd).1
    by_cases hany : g.any (fun a => asgs.contains a) = true
    · have hins : dictInsert acc n g = acc ++ [(n, g)] :=
        dictInsert_fresh acc n g
          (hfresh c (List.mem_cons_self c rest) n hn)
      have hfresh' : ∀ c' ∈ rest, ∀ n', c'.cluster = some n' →
          n' ∉ (acc ++ [(n, g)]).map Prod.fst := by
        intro c' hc' n' hn'
        simp only [List.map_append, List.mem_append, List.map_cons,
          List.map_nil, List.mem_cons, List.not_mem_nil]
        push_neg
        refine ⟨hfresh c' (List.mem_cons_of_mem c hc') n' hn', ?_, by simp⟩
        intro heq
        exact hnotin (heq ▸ List.mem_filterMap.mpr ⟨c', hc', hn'⟩)
      have ih := clustersLoop_wellformed asgs rest (acc ++ [(n, g)])
        (fun c' h' => hwf c' (List.mem_cons_of_mem c h')) hfresh' hnd'
      simp only [clustersLoop, hn, hg', hany, if_true, hins, ih,
        List.filterMap_cons, selectCluster]
      simp [List.append_assoc]
    · have ih := clustersLoop_wellformed asgs rest acc
        (fun c' h' => hwf c' (List.mem_cons_of_mem c h'))
        (fun c' h' => hfresh c' (List.mem_cons_of_mem c h')) hnd'
      simp only [clustersLoop, hn, hg', hany, if_false, ih,
        List.filterMap_cons, selectCluster]
      simp [hany]

/-- C6: on a well-formed cluster listing (every record has both the cluster
and the autoScalingGroups key) with pairwise distinct cluster names,
`clusters_for_asgs` queries the listing once and returns exactly the clusters
whose ASG list contains at least one requested name, each paired with that
cluster's full ASG list (filterMap of `selectCluster`); the second conjunct
restates membership in the result in those words. -/
theorem clusters_for_asgs_spec (env : Env) (asgs : List String)
    (hwf : ∀ c ∈ env.clusterListing,
      c.cluster ≠ none ∧ c.autoScalingGroups ≠ none)
    (hnd : (env.clusterListing.filterMap RawCluster.cluster).Nodup) :
    clusters_for_asgs env asgs =
      (Except.ok (env.clusterListing.filterMap (selectCluster asgs)),
        [Ev.clusterList]) ∧
    (∀ n g, (n, g) ∈ env.clusterListing.filterMap (selectCluster asgs) ↔
      ∃ c ∈ env.clusterListing, c.cluster = some n ∧
        c.autoScalingGroups = some g ∧
        g.any (fun a => asgs.contains a) = true) := by
  constructor
  · unfold clusters_for_asgs
    rw [clustersLoop_wellformed asgs env.clusterListing [] hwf (by simp) hnd]
    simp
  · intro n g
    rw [List.mem_filterMap]
    constructor
    · rintro ⟨c, hc, hsel⟩
      refine ⟨c, hc, ?_⟩
      rcases hcc : c.cluster with _ | n0 <;>
        rcases hgg : c.autoScalingGroups with _ | g0 <;>
        simp only [selectCluster, hcc, hgg] at hsel <;>
        try exact Option.noConfusion hsel
      by_cases hany : (g0.any fun a => asgs.contains a) = true
      · rw [if_pos hany] at hsel
        obtain ⟨rfl, rfl⟩ : n0 = n ∧ g0 = g := by
          exact ⟨congrArg Prod.fst (Option.some.inj hsel),
            congrArg Prod.snd (Option.some.inj hsel)⟩
        exact ⟨rfl, rfl, hany⟩
      · rw [if_neg hany] at hsel
        exact Option.noConfusion hsel
    · rintro ⟨c, hc, hcc, hgg, hany⟩
      refine ⟨c, hc, ?_⟩
      simp only [selectCluster, hcc, hgg, hany, if_pos]

/-- Environment whose cluster listing holds two well-formed clusters, only
the first of which contains the requested ASG. -/
def directoryEnv : Env :=
  { statusEnv { status := "completed", log := "" } with
    clusterListing :=
      [ { cluster := some "edx-edxapp",
          autoScalingGroups := some ["edx-edxapp-v010"] },
        { cluster := some "edx-worker",
          autoScalingGroups := some ["edx-worker-v004"] } ] }

/-- Witness for C6: the requested ASG edx-edxapp-v010 selects exactly the
edx-edxapp cluster, mapped to its full ASG list. -/
theorem clusters_for_asgs_spec_witness :
    clusters_for_asgs directoryEnv ["edx-edxapp-v010"] =
      (Except.ok [("edx-edxapp", ["edx-edxapp-v010"])], [Ev.clusterList]) :=
  (clusters_for_asgs_spec directoryEnv ["edx-edxapp-v010"]
    (by intro c hc; fin_cases hc <;> simp [directoryEnv])
    (by simp [directoryEnv])).1

theorem disableCalls_append (s t : List Ev) :
    disableCalls (s ++ t) = disableCalls s ++ disableCalls t := by
  simp [disableCalls]

theorem enableCalls_append (s t : List Ev) :
    enableCalls (s ++ t) = enableCalls s ++ enableCalls t := by
  simp [enableCalls]

theorem createCalls_append (s t : List Ev) :
    createCalls (s ++ t) = createCalls s ++ createCalls t := by
  simp [createCalls]

theorem disableCalls_nil : disableCalls [] = [] := rfl

theorem enableCalls_nil : enableCalls [] = [] := rfl

theorem createCalls_nil : createCalls [] = [] := rfl

theorem disableCalls_clusterList (t : List Ev) :
    disableCalls (Ev.clusterList :: t) = disableCalls t := rfl

theorem enableCalls_clusterList (t : List Ev) :
    enableCalls (Ev.clusterList :: t) = enableCalls t := rfl

theorem createCalls_clusterList (t : List Ev) :
    createCalls (Ev.clusterList :: t) = createCalls t := rfl

theorem disableCalls_waitInService (ns : List String) (t : List Ev) :
    disableCalls (Ev.waitInService ns :: t) = disableCalls t := rfl

theorem enableCalls_waitInService (ns : List String) (t : List Ev) :
    enableCalls (Ev.waitInService ns :: t) = enableCalls t := rfl

theorem createCalls_waitInService (ns : List String) (t : List Ev) :
    createCalls (Ev.waitInService ns :: t) = createCalls t := rfl

theorem disableCalls_waitElbs (ns : List String) (t : List Ev) :
    disableCalls (Ev.waitElbs ns :: t) = disableCalls t := rfl

theorem enableCalls_waitElbs (ns : List String) (t : List Ev) :
    enableCalls (Ev.waitElbs ns :: t) = enableCalls t := rfl

theorem createCalls_waitElbs (ns : List String) (t : List Ev) :
    createCalls (Ev.waitElbs ns :: t) = createCalls t := rfl

/-- A status request carries none of the tracked call kinds. -/
theorem pollLoop_calls_nil (env : Env) (url : String) (fuel k : Nat) :
    disableCalls (pollLoop env url fuel k).2 = [] ∧
    enableCalls (pollLoop env url fuel k).2 = [] ∧
    createCalls (pollLoop env url fuel k).2 = [] := by
  refine ⟨?_, ?_, ?_⟩ <;>
    [rw [disableCalls, List.filterMap_eq_nil_iff];
      rw [enableCalls, List.filterMap_eq_nil_iff];
      rw [createCalls, List.filterMap_eq_nil_iff]] <;>
    intro e he <;>
    rw [pollLoop_events env url fuel k e he]

theorem wait_calls_nil (env : Env) (url : String) (timeout : Int) :
    disableCalls (wait_for_task_completion env url timeout).2 = [] ∧
    enableCalls (wait_for_task_completion env url timeout).2 = [] ∧
    createCalls (wait_for_task_completion env url timeout).2 = [] :=
  pollLoop_calls_nil env (normTaskUrl url) timeout.toNat 0

/-- Trace shape of `disable_asg`: the deactivate request, then only status
polls. -/
theorem disable_asg_trace (env : Env) (arg : NameArg) :
    (disable_asg env arg).2 =
      Ev.disableReq arg ::
        (wait_for_task_completion env (env.disableUrl arg) 300).2 := by
  unfold disable_asg
  rcases hw : wait_for_task_completion env (env.disableUrl arg) 300 with ⟨res, tr⟩
  rcases res with e | st
  · simp
  · by_cases hst : st.status = "failed" <;> simp [hst]

theorem disable_asg_disableCalls (env : Env) (arg : NameArg) :
    disableCalls (disable_asg env arg).2 = [arg] := by
  rw [disable_asg_trace]
  have h := (wait_calls_nil env (env.disableUrl arg) 300).1
  simp [disableCalls] at h ⊢
  simpa [disableCalls] using h

theorem disable_asg_enableCalls (env : Env) (arg : NameArg) :
    enableCalls (disable_asg env arg).2 = [] := by
  rw [disable_asg_trace]
  have h := (wait_calls_nil env (env.disableUrl arg) 300).2.1
  simp [enableCalls] at h ⊢
  simpa [enableCalls] using h

/-- Trace shape of `enable_asg`: the activate request, then only status
polls. -/
theorem enable_asg_trace (env : Env) (asg : String) :
    (enable_asg env asg).2 =
      Ev.enableReq asg ::
        (wait_for_task_completion env (env.enableUrl asg) 301).2 := by
  unfold enable_asg
  rcases hw : wait_for_task_completion env (env.enableUrl asg) 301 with ⟨res, tr⟩
  rcases res with e | st
  · simp
  · by_cases hst : st.status = "failed" <;> simp [hst]

theorem enable_asg_disableCalls (env : Env) (asg : String) :
    disableCalls (enable_asg env asg).2 = [] := by
  rw [enable_asg_trace]
  have h := (wait_calls_nil env (env.enableUrl asg) 301).1
  simp [disableCalls] at h ⊢
  simpa [disableCalls] using h

theorem enable_asg_enableCalls (env : Env) (asg : String) :
    enableCalls (enable_asg env asg).2 = [asg] := by
  rw [enable_asg_trace]
  have h := (wait_calls_nil env (env.enableUrl asg) 301).2.1
  simp [enableCalls] at h ⊢
  simpa [enableCalls] using h

theorem asgs_for_cluster_trace (env : Env) (cluster : String) :
    (asgs_for_cluster env cluster).2 = [Ev.clusterShowReq cluster] := by
  unfold asgs_for_cluster
  rcases h : extractAsgNames (env.clusterShow cluster) with _ | names <;> simp [h]

/-- Trace shape of `new_asg`: the create request, then status polls and at
most one cluster ASG list query. -/
theorem new_asg_trace (env : Env) (cluster ami_id : String) :
    ∃ rest, (new_asg env cluster ami_id).2 =
        Ev.createReq cluster ami_id :: rest ∧
      ∀ e ∈ rest, (∃ u, e = Ev.statusReq u) ∨ e = Ev.clusterShowReq cluster := by
  unfold new_asg
  rcases hw : wait_for_task_completion env (env.createUrl cluster ami_id)
    ASGARD_WAIT_TIMEOUT with ⟨res, tr⟩
  have htr : ∀ e ∈ tr, ∃ u, e = Ev.statusReq u := by
    intro e he
    have h' : pollLoop env (normTaskUrl (env.createUrl cluster ami_id))
        ASGARD_WAIT_TIMEOUT.toNat 0 = (res, tr) := hw
    exact ⟨_, pollLoop_events env (normTaskUrl (env.createUrl cluster ami_id))
      ASGARD_WAIT_TIMEOUT.toNat 0 e (by rw [h']; exact he)⟩
  rcases res with e | st
  · exact ⟨tr, by simp, fun e he => Or.inl (htr e he)⟩
  · by_cases hst : st.status = "failed"
    · exact ⟨tr, by simp [hst], fun e he => Or.inl (htr e he)⟩
    · rcases hq : asgs_for_cluster env cluster with ⟨qres, qtr⟩
      have hqtr : qtr = [Ev.clusterShowReq cluster] := by
        have := asgs_for_cluster_trace env cluster
        rw [hq] at this
        exact this
      have hrest : ∀ e ∈ tr ++ qtr,
          (∃ u, e = Ev.statusReq u) ∨ e = Ev.clusterShowReq cluster := by
        intro e he
        rcases List.mem_append.mp he with he | he
        · exact Or.inl (htr e he)
        · rw [hqtr] at he
          simp at he
          exact Or.inr he
      rcases qres with e | names
      · exact ⟨tr ++ qtr, by simp [hst], hrest⟩
      · rcases hl : names.getLast? with _ | last
        · exact ⟨tr ++ qtr, by simp [hst, hl], hrest⟩
        · exact ⟨tr ++ qtr, by simp [hst, hl], hrest⟩

theorem new_asg_disableCalls (env : Env) (cluster ami_id : String) :
    disableCalls (new_asg env cluster ami_id).2 = [] := by
  obtain ⟨rest, hsh, hrest⟩ := new_asg_trace env cluster ami_id
  rw [hsh, disableCalls, List.filterMap_eq_nil_iff]
  intro e he
  rcases List.mem_cons.mp he with rfl | he
  · rfl
  · rcases hrest e he with ⟨u, rfl⟩ | rfl <;> rfl

theorem new_asg_enableCalls (env : Env) (cluster ami_id : String) :
    enableCalls (new_asg env cluster ami_id).2 = [] := by
  obtain ⟨rest, hsh, hrest⟩ := new_asg_trace env cluster ami_id
  rw [hsh, enableCalls, List.filterMap_eq_nil_iff]
  intro e he
  rcases List.mem_cons.mp he with rfl | he
  · rfl
  · rcases hrest e he with ⟨u, rfl⟩ | rfl <;> rfl

theorem new_asg_createCalls (env : Env) (cluster ami_id : String) :
    createCalls (new_asg env cluster ami_id).2 = [cluster] := by
  obtain ⟨rest, hsh, hrest⟩ := new_asg_trace env cluster ami_id
  have hnil : createCalls rest = [] := by
    rw [createCalls, List.filterMap_eq_nil_iff]
    intro e he
    rcases hrest e he with ⟨u, rfl⟩ | rfl <;> rfl
  rw [hsh]
  simp [createCalls] at hnil ⊢
  simpa [createCalls] using hnil

theorem createLoop_calls_nil (env : Env) (ami_id : String) :
    ∀ cs, disableCalls (createLoop env ami_id cs).2 = [] ∧
      enableCalls (createLoop env ami_id cs).2 = []
  | [] => by simp [createLoop, disableCalls, enableCalls]
  | c :: rest => by
    obtain ⟨ihd, ihe⟩ := createLoop_calls_nil env ami_id rest
    unfold createLoop
    rcases hr : new_asg env c ami_id with ⟨res, tr⟩
    have htd : disableCalls tr = [] := by
      have := new_asg_disableCalls env c ami_id
      rw [hr] at this
      exact this
    have hte : enableCalls tr = [] := by
      have := new_asg_enableCalls env c ami_id
      rw [hr] at this
      exact this
    rcases res with e | name
    · simp [htd, hte]
    · rcases hs : createLoop env ami_id rest with ⟨sres, str⟩
      rw [hs] at ihd ihe
      rcases sres with e | tail <;>
        simp [disableCalls_append, enableCalls_append, htd, hte, ihd, ihe]

/-- CREATE failure: when every cluster before `c` creates fine and `c` fails,
the loop stops at `c` re-raising the same error, having issued create
requests only for the earlier clusters and `c`, and no deactivation and no
activation at all. -/
theorem createLoop_failure (env : Env) (ami_id : String) :
    ∀ (done : List String) (c : String) (rest : List String) (e : Err),
      (∀ d ∈ done, ∃ n, (new_asg env d ami_id).1 = Except.ok n) →
      (new_asg env c ami_id).1 = Except.error e →
      (createLoop env ami_id (done ++ c :: rest)).1 = Except.error e ∧
      createCalls (createLoop env ami_id (done ++ c :: rest)).2 = done ++ [c]
  | [], c, rest, e, _, hfail => by
    unfold createLoop
    rcases hr : new_asg env c ami_id with ⟨res, tr⟩
    rw [hr] at hfail
    simp only at hfail
    subst hfail
    have htc : createCalls tr = [c] := by
      have := new_asg_createCalls env c ami_id
      rw [hr] at this
      exact this
    simp [hr, htc]
  | d :: done, c, rest, e, hdone, hfail => by
    obtain ⟨ih1, ih2⟩ := createLoop_failure env ami_id done c rest e
      (fun d' h' => hdone d' (List.mem_cons_of_mem d h')) hfail
    obtain ⟨n, hn⟩ := hdone d (List.mem_cons_self d done)
    rw [List.cons_append]
    unfold createLoop
    rcases hr : new_asg env d ami_id with ⟨res, tr⟩
    rw [hr] at hn
    simp only at hn
    subst hn
    have htc : createCalls tr = [d] := by
      have := new_asg_createCalls env d ami_id
      rw [hr] at this
      exact this
    rcases hs : createLoop env ami_id (done ++ c :: rest) with ⟨sres, str⟩
    rw [hs] at ih1 ih2
    simp only at ih1 ih2
    subst ih1
    simp [hr, hs, createCalls_append, htc, ih2]

theorem activate_step_calls (env : Env) (asg : String) :
    disableCalls (activate_step env asg).2 = [] ∧
    enableCalls (activate_step env asg).2 = [asg] := by
  unfold activate_step
  rcases hr : enable_asg env asg with ⟨res, tr⟩
  have htd : disableCalls tr = [] := by
    have := enable_asg_disableCalls env asg
    rw [hr] at this
    exact this
  have hte : enableCalls tr = [asg] := by
    have := enable_asg_enableCalls env asg
    rw [hr] at this
    exact this
  have hinfo_d : disableCalls [Ev.asgInfoReq asg] = [] := rfl
  have hinfo_e : enableCalls [Ev.asgInfoReq asg] = [] := rfl
  rcases res with e | u
  · simp [htd, hte]
  · rcases env.asgLoadBalancers asg with e | elbs <;>
      simp [disableCalls_append, enableCalls_append, htd, hte,
        hinfo_d, hinfo_e]

/-- ACTIVATE loop on the all-success path: no deactivation happens and every
new ASG is activated once, in order. -/
theorem activateLoop_ok_calls (env : Env) :
    ∀ (l : List (String × String)) (elbs : List String) (t : List Ev),
      activateLoop env l = (Except.ok elbs, t) →
      disableCalls t = [] ∧ enableCalls t = l.map Prod.snd
  | [], elbs, t, h => by
    simp only [activateLoop, Prod.mk.injEq] at h
    rw [← h.2]
    simp [disableCalls, enableCalls]
  | (c, a) :: rest, elbs, t, h => by
    simp only [activateLoop] at h
    rcases hr : activate_step env a with ⟨res, tr⟩
    rw [hr] at h
    obtain ⟨hsd, hse⟩ := activate_step_calls env a
    rw [hr] at hsd hse
    rcases res with e | elbs0
    · rcases hd : disable_asg env (NameArg.one a) with ⟨dres, dtr⟩
      rw [hd] at h
      rcases dres with e2 | u <;> simp at h
    · rcases hs : activateLoop env rest with ⟨sres, str⟩
      rw [hs] at h
      rcases sres with e | more
      · simp at h
      · simp only [Prod.mk.injEq] at h
        obtain ⟨ihd, ihe⟩ := activateLoop_ok_calls env rest more str hs
        rw [← h.2]
        simp [disableCalls_append, enableCalls_append, hsd, hse, ihd, ihe]

/-- ACTIVATE loop when the step of one ASG fails after earlier ones
succeeded: only that ASG is deactivated (a single disable call) and the
original error is re-raised, provided its deactivation succeeds. -/
theorem activateLoop_failure (env : Env) :
    ∀ (done : List (String × String)) (c a : String)
      (rest : List (String × String)) (e : Err),
      (∀ p ∈ done, ∃ lb, (activate_step env p.2).1 = Except.ok lb) →
      (activate_step env a).1 = Except.error e →
      disableOk env (NameArg.one a) →
      (activateLoop env (done ++ (c, a) :: rest)).1 = Except.error e ∧
      disableCalls (activateLoop env (done ++ (c, a) :: rest)).2 =
        [NameArg.one a] ∧
      enableCalls (activateLoop env (done ++ (c, a) :: rest)).2 =
        done.map Prod.snd ++ [a]
  | [], c, a, rest, e, _, hfail, hdis => by
    rw [List.nil_append]
    unfold activateLoop
    rcases hr : activate_step env a with ⟨res, tr⟩
    rw [hr] at hfail
    simp only at hfail
    subst hfail
    obtain ⟨hsd, hse⟩ := activate_step_calls env a
    rw [hr] at hsd hse
    rcases hd : disable_asg env (NameArg.one a) with ⟨dres, dtr⟩
    have hdok : dres = Except.ok () := by
      have := hdis
      rw [disableOk, hd] at this
      exact this
    subst hdok
    have hdd : disableCalls dtr = [NameArg.one a] := by
      have := disable_asg_disableCalls env (NameArg.one a)
      rw [hd] at this
      exact this
    have hde : enableCalls dtr = [] := by
      have := disable_asg_enableCalls env (NameArg.one a)
      rw [hd] at this
      exact this
    simp [disableCalls_append, enableCalls_append, hsd, hse, hdd, hde]
  | p :: done, c, a, rest, e, hdone, hfail, hdis => by
    obtain ⟨ih1, ih2, ih3⟩ := activateLoop_failure env done c a rest e
      (fun q hq => hdone q (List.mem_cons_of_mem p hq)) hfail hdis
    obtain ⟨lb, hlb⟩ := hdone p (List.mem_cons_self p done)
    rw [List.cons_append]
    obtain ⟨c0, a0⟩ := p
    unfold activateLoop
    rcases hr : activate_step env a0 with ⟨res, tr⟩
    rw [hr] at hlb
    simp only at hlb
    subst hlb
    obtain ⟨hsd, hse⟩ := activate_step_calls env a0
    rw [hr] at hsd hse
    rcases hs : activateLoop env (done ++ (c, a) :: rest) with ⟨sres, str⟩
    rw [hs] at ih1 ih2 ih3
    simp only at ih1 ih2 ih3
    subst ih1
    simp [disableCalls_append, enableCalls_append, hsd, hse, ih2, ih3]

/-- Rollback loop when every deactivation succeeds: each new ASG receives
exactly one deactivation call, in order, and the loop itself succeeds. -/
theorem rollbackLoop_ok (env : Env) :
    ∀ (l : List (String × String)),
      (∀ p ∈ l, disableOk env (NameArg.one p.2)) →
      (rollbackLoop env l).1 = Except.ok () ∧
      disableCalls (rollbackLoop env l).2 =
        l.map (fun p => NameArg.one p.2)
  | [], _ => by simp [rollbackLoop, disableCalls]
  | p :: rest, hok => by
    obtain ⟨ih1, ih2⟩ := rollbackLoop_ok env rest
      (fun q hq => hok q (List.mem_cons_of_mem p hq))
    obtain ⟨c0, a0⟩ := p
    unfold rollbackLoop
    rcases hd : disable_asg env (NameArg.one a0) with ⟨dres, dtr⟩
    have hdok : dres = Except.ok () := by
      have := hok (c0, a0) (List.mem_cons_self (c0, a0) rest)
      rw [disableOk, hd] at this
      exact this
    subst hdok
    have hdd : disableCalls dtr = [NameArg.one a0] := by
      have := disable_asg_disableCalls env (NameArg.one a0)
      rw [hd] at this
      exact this
    rcases hs : rollbackLoop env rest with ⟨sres, str⟩
    rw [hs] at ih1 ih2
    simp only at ih1 ih2
    subst ih1
    simp [disableCalls_append, hdd, ih2]

/-- Rollback loop when the deactivation of one new ASG fails after earlier
ones succeeded: the loop stops there, so the remaining ASGs receive no
deactivation call and the deactivation error propagates. -/
theorem rollbackLoop_failure (env : Env) :
    ∀ (done : List (String × String)) (c a : String)
      (rest : List (String × String)) (e2 : Err),
      (∀ p ∈ done, disableOk env (NameArg.one p.2)) →
      (disable_asg env (NameArg.one a)).1 = Except.error e2 →
      (rollbackLoop env (done ++ (c, a) :: rest)).1 = Except.error e2 ∧
      disableCalls (rollbackLoop env (done ++ (c, a) :: rest)).2 =
        done.map (fun p => NameArg.one p.2) ++ [NameArg.one a]
  | [], c, a, rest, e2, _, hfail => by
    rw [List.nil_append]
    unfold rollbackLoop
    rcases hd : disable_asg env (NameArg.one a) with ⟨dres, dtr⟩
    rw [hd] at hfail
    simp only at hfail
    subst hfail
    have hdd : disableCalls dtr = [NameArg.one a] := by
      have := disable_asg_disableCalls env (NameArg.one a)
      rw [hd] at this
      exact this
    simp [hdd]
  | p :: done, c, a, rest, e2, hdone, hfail => by
    obtain ⟨ih1, ih2⟩ := rollbackLoop_failure env done c a rest e2
      (fun q hq => hdone q (List.mem_cons_of_mem p hq)) hfail
    obtain ⟨c0, a0⟩ := p
    rw [List.cons_append]
    unfold rollbackLoop
    rcases hd : disable_asg env (NameArg.one a0) with ⟨dres, dtr⟩
    have hdok : dres = Except.ok () := by
      have := hdone (c0, a0) (List.mem_cons_self (c0, a0) done)
      rw [disableOk, hd] at this
      exact this
    subst hdok
    have hdd : disableCalls dtr = [NameArg.one a0] := by
      have := disable_asg_disableCalls env (NameArg.one a0)
      rw [hd] at this
      exact this
    rcases hs : rollbackLoop env (done ++ (c, a) :: rest) with ⟨sres, str⟩
    rw [hs] at ih1 ih2
    simp only at ih1 ih2
    subst ih1
    simp [disableCalls_append, hdd, ih2]

/-- C2: when the deployment reaches the ELB health gate and that gate fails,
every new ASG created in this run receives exactly one deactivation call (in
iteration order, each with that single new ASG name as argument — so no
original old ASG is ever deactivated), and afterwards the original health
gate error is re-raised to the caller; this holds for every run in which all
of those deactivation calls succeed. -/
theorem deploy_elb_failure_rollback (env : Env) (ami_id : String)
    (ecs : List (String × List String)) (tD : List Ev)
    (newAsgs : List (String × String)) (tC : List Ev)
    (elbs : List String) (tA : List Ev) (e : Err)
    (hdisc : clusters_for_asgs env (env.asgsForEdc (env.edcForAmi ami_id)) =
      (Except.ok ecs, tD))
    (hcreate : createLoop env ami_id (ecs.map Prod.fst) =
      (Except.ok newAsgs, tC))
    (hwis : env.inService (newAsgs.map Prod.snd) 300 = Except.ok ())
    (hact : activateLoop env newAsgs = (Except.ok elbs, tA))
    (helb : env.healthyElbs elbs 600 = Except.error e)
    (hrb : ∀ p ∈ newAsgs, disableOk env (NameArg.one p.2)) :
    (deploy env ami_id).1 = Except.error e ∧
    disableCalls (deploy env ami_id).2 =
      newAsgs.map (fun p => NameArg.one p.2) := by
  have htD : tD = [Ev.clusterList] := by
    have h2 := congrArg Prod.snd hdisc
    simp [clusters_for_asgs] at h2
    exact h2.symm
  have hCd : disableCalls tC = [] := by
    have := (createLoop_calls_nil env ami_id (ecs.map Prod.fst)).1
    rw [hcreate] at this
    exact this
  obtain ⟨hAd, hAe⟩ := activateLoop_ok_calls env newAsgs elbs tA hact
  obtain ⟨hr1, hr2⟩ := rollbackLoop_ok env newAsgs hrb
  rcases hroll : rollbackLoop env newAsgs with ⟨rres, rtr⟩
  rw [hroll] at hr1 hr2
  simp only at hr1 hr2
  subst hr1
  constructor
  · simp only [deploy, hdisc, hcreate, hwis, hact, helb, hroll]
  · simp only [deploy, hdisc, hcreate, hwis, hact, helb, hroll]
    rw [htD]
    simp [disableCalls_append, hCd, hAd, hr2, disableCalls_clusterList,
      disableCalls_waitInService, disableCalls_waitElbs, disableCalls_nil]

/-- Witness environment for the C2 rollback scenario: two clusters, every
backend task completes, instance health passes, and the ELB health gate
fails. -/
def rollbackEnv : Env :=
  { clusterListing :=
      [ { cluster := some "edx-edxapp",
          autoScalingGroups := some ["edx-edxapp-v010"] },
        { cluster := some "edx-worker",
          autoScalingGroups := some ["edx-worker-v004"] } ]
    clusterShow := fun c =>
      if c = "edx-edxapp" then
        [some "edx-edxapp-v010", some "edx-edxapp-v011"]
      else
        [some "edx-worker-v004", some "edx-worker-v005"]
    createUrl := fun c _ => "create-" ++ c
    enableUrl := fun a => "enable-" ++ a
    disableUrl := fun _ => "deactivate"
    pollStatus := fun _ _ => { status := "completed", log := "" }
    asgLoadBalancers := fun a => Except.ok ["elb-" ++ a]
    edcForAmi := fun _ => "edc"
    asgsForEdc := fun _ => ["edx-edxapp-v010", "edx-worker-v004"]
    inService := fun _ _ => Except.ok ()
    healthyElbs := fun _ _ =>
      Except.error (Err.timedOut "Timed out waiting for ELBs") }

/-- Witness for C2: in the two-cluster rollback scenario each of the two new
ASGs is deactivated exactly once and the ELB timeout error is re-raised. -/
theorem deploy_elb_failure_rollback_witness :
    (deploy rollbackEnv "ami-1").1 =
      Except.error (Err.timedOut "Timed out waiting for ELBs") ∧
    disableCalls (deploy rollbackEnv "ami-1").2 =
      [NameArg.one "edx-edxapp-v011", NameArg.one "edx-worker-v005"] :=
  deploy_elb_failure_rollback rollbackEnv "ami-1"
    [("edx-edxapp", ["edx-edxapp-v010"]), ("edx-worker", ["edx-worker-v004"])]
    [Ev.clusterList]
    [("edx-edxapp", "edx-edxapp-v011"), ("edx-worker", "edx-worker-v005")]
    (createLoop rollbackEnv "ami-1" ["edx-edxapp", "edx-worker"]).2
    ["elb-edx-edxapp-v011", "elb-edx-worker-v005"]
    (activateLoop rollbackEnv
      [("edx-edxapp", "edx-edxapp-v011"), ("edx-worker", "edx-worker-v005")]).2
    (Err.timedOut "Timed out waiting for ELBs")
    rfl rfl rfl rfl rfl
    (by intro p hp; fin_cases hp <;> exact rfl)

/-- C7: when the creation of the new ASG for some cluster fails after earlier
clusters succeeded, deploy re-raises that same error at once: create requests
were issued only for the earlier clusters and the failing one, no further
cluster is attempted, and no ASG is deactivated (and none activated). -/
theorem deploy_create_failure (env : Env) (ami_id : String)
    (ecs : List (String × List String)) (tD : List Ev)
    (done : List String) (c : String) (rest : List String) (e : Err)
    (hdisc : clusters_for_asgs env (env.asgsForEdc (env.edcForAmi ami_id)) =
      (Except.ok ecs, tD))
    (hsplit : ecs.map Prod.fst = done ++ c :: rest)
    (hdone : ∀ d ∈ done, ∃ n, (new_asg env d ami_id).1 = Except.ok n)
    (hfail : (new_asg env c ami_id).1 = Except.error e) :
    (deploy env ami_id).1 = Except.error e ∧
    createCalls (deploy env ami_id).2 = done ++ [c] ∧
    disableCalls (deploy env ami_id).2 = [] ∧
    enableCalls (deploy env ami_id).2 = [] := by
  have htD : tD = [Ev.clusterList] := by
    have h2 := congrArg Prod.snd hdisc
    simp [clusters_for_asgs] at h2
    exact h2.symm
  obtain ⟨hc1, hc2⟩ := createLoop_failure env ami_id done c rest e hdone hfail
  rw [← hsplit] at hc1 hc2
  have hCd : disableCalls (createLoop env ami_id (ecs.map Prod.fst)).2 = [] :=
    (createLoop_calls_nil env ami_id (ecs.map Prod.fst)).1
  have hCe : enableCalls (createLoop env ami_id (ecs.map Prod.fst)).2 = [] :=
    (createLoop_calls_nil env ami_id (ecs.map Prod.fst)).2
  rcases hcl : createLoop env ami_id (ecs.map Prod.fst) with ⟨cres, ctr⟩
  rw [hcl] at hc1 hc2 hCd hCe
  simp only at hc1 hc2 hCd hCe
  subst hc1
  refine ⟨?_, ?_, ?_, ?_⟩ <;>
    simp only [deploy, hdisc, hcl] <;>
    rw [htD] <;>
    simp [createCalls_append, disableCalls_append, enableCalls_append,
      hc2, hCd, hCe, createCalls_clusterList, disableCalls_clusterList,
      enableCalls_clusterList, createCalls_nil, disableCalls_nil,
      enableCalls_nil]

/-- Witness environment for C7: the edx-edxapp cluster creates its new ASG
fine, the edx-worker creation task reports failed. -/
def createFailEnv : Env :=
  { rollbackEnv with
    pollStatus := fun url _ =>
      if url = normTaskUrl (rollbackEnv.createUrl "edx-worker" "ami-1") then
        { status := "failed", log := "boom" }
      else
        { status := "completed", log := "" } }

/-- Witness for C7: with the second cluster failing to create, deploy stops
after two create requests, raises the creation BackendError, and neither
deactivates nor activates anything. -/
theorem deploy_create_failure_witness :
    (deploy createFailEnv "ami-1").1 =
      Except.error (Err.backend
        ("Failure during new ASG creation. Task Log: \n" ++ "boom")) ∧
    createCalls (deploy createFailEnv "ami-1").2 =
      ["edx-edxapp"] ++ ["edx-worker"] ∧
    disableCalls (deploy createFailEnv "ami-1").2 = [] ∧
    enableCalls (deploy createFailEnv "ami-1").2 = [] :=
  deploy_create_failure createFailEnv "ami-1"
    [("edx-edxapp", ["edx-edxapp-v010"]), ("edx-worker", ["edx-worker-v004"])]
    [Ev.clusterList]
    ["edx-edxapp"] "edx-worker" []
    (Err.backend ("Failure during new ASG creation. Task Log: \n" ++ "boom"))
    rfl rfl
    (by intro d hd; fin_cases hd; exact ⟨"edx-edxapp-v011", rfl⟩)
    rfl

/-- C8 (amended): when, in the ACTIVATE stage, the activation of one new ASG
or the lookup of its load balancers fails after earlier iterations succeeded,
deploy deactivates that specific ASG only (the one disable call of the whole
run) and — provided that rollback deactivation succeeds — re-raises the
original error; the ASGs activated earlier (activation calls listed in
order) receive no deactivation call and are left active.  The proviso is
forced by the counterexample below: when the rollback deactivation itself
fails, its error propagates instead of the original. -/
theorem deploy_activate_failure_rollback (env : Env) (ami_id : String)
    (ecs : List (String × List String)) (tD : List Ev)
    (newAsgs : List (String × String)) (tC : List Ev)
    (done : List (String × String)) (c a : String)
    (rest : List (String × String)) (e : Err)
    (hdisc : clusters_for_asgs env (env.asgsForEdc (env.edcForAmi ami_id)) =
      (Except.ok ecs, tD))
    (hcreate : createLoop env ami_id (ecs.map Prod.fst) =
      (Except.ok newAsgs, tC))
    (hwis : env.inService (newAsgs.map Prod.snd) 300 = Except.ok ())
    (hsplit : newAsgs = done ++ (c, a) :: rest)
    (hdone : ∀ p ∈ done, ∃ lb, (activate_step env p.2).1 = Except.ok lb)
    (hfail : (activate_step env a).1 = Except.error e)
    (hdis : disableOk env (NameArg.one a)) :
    (deploy env ami_id).1 = Except.error e ∧
    disableCalls (deploy env ami_id).2 = [NameArg.one a] ∧
    enableCalls (deploy env ami_id).2 = done.map Prod.snd ++ [a] := by
  have htD : tD = [Ev.clusterList] := by
    have h2 := congrArg Prod.snd hdisc
    simp [clusters_for_asgs] at h2
    exact h2.symm
  have hCd : disableCalls tC = [] := by
    have := (createLoop_calls_nil env ami_id (ecs.map Prod.fst)).1
    rw [hcreate] at this
    exact this
  have hCe : enableCalls tC = [] := by
    have := (createLoop_calls_nil env ami_id (ecs.map Prod.fst)).2
    rw [hcreate] at this
    exact this
  obtain ⟨h1, h2, h3⟩ := activateLoop_failure env done c a rest e hdone
    hfail hdis
  rw [← hsplit] at h1 h2 h3
  rcases hal : activateLoop env newAsgs with ⟨ares, atr⟩
  rw [hal] at h1 h2 h3
  simp only at h1 h2 h3
  subst h1
  refine ⟨?_, ?_, ?_⟩ <;>
    simp only [deploy, hdisc, hcreate, hwis, hal] <;>
    rw [htD] <;>
    simp [disableCalls_append, enableCalls_append, hCd, hCe, h2, h3,
      disableCalls_clusterList, enableCalls_clusterList,
      disableCalls_waitInService, enableCalls_waitInService,
      disableCalls_nil, enableCalls_nil]

/-- Witness environment for C8: both clusters create their new ASG, instance
health passes, the first new ASG activates fine, the activation task of the
second reports failed, and its rollback deactivation succeeds. -/
def activateFailEnv : Env :=
  { rollbackEnv with
    pollStatus := fun url _ =>
      if url = normTaskUrl (rollbackEnv.enableUrl "edx-worker-v005") then
        { status := "failed", log := "boom" }
      else
        { status := "completed", log := "" } }

/-- Witness for C8: the failing second ASG is the only one deactivated, the
first stays active, and the enabling BackendError is re-raised. -/
theorem deploy_activate_failure_rollback_witness :
    (deploy activateFailEnv "ami-1").1 =
      Except.error (Err.backend
        ("Failure while enabling ASG. Task Log: \n" ++ "boom")) ∧
    disableCalls (deploy activateFailEnv "ami-1").2 =
      [NameArg.one "edx-worker-v005"] ∧
    enableCalls (deploy activateFailEnv "ami-1").2 =
      ["edx-edxapp-v011"] ++ ["edx-worker-v005"] :=
  deploy_activate_failure_rollback activateFailEnv "ami-1"
    [("edx-edxapp", ["edx-edxapp-v010"]), ("edx-worker", ["edx-worker-v004"])]
    [Ev.clusterList]
    [("edx-edxapp", "edx-edxapp-v011"), ("edx-worker", "edx-worker-v005")]
    (createLoop activateFailEnv "ami-1" ["edx-edxapp", "edx-worker"]).2
    [("edx-edxapp", "edx-edxapp-v011")] "edx-worker" "edx-worker-v005" []
    (Err.backend ("Failure while enabling ASG. Task Log: \n" ++ "boom"))
    rfl rfl rfl rfl
    (by intro p hp; fin_cases hp; exact ⟨["elb-edx-edxapp-v011"], rfl⟩)
    rfl rfl

/-- Counterexample environment for C8: one cluster, creation succeeds, the
activation task of the new ASG reports failed, and the rollback deactivation
task of that same ASG also reports failed, with a different log. -/
def activateDisableFailEnv : Env :=
  { clusterListing :=
      [ { cluster := some "edx-edxapp",
          autoScalingGroups := some ["edx-edxapp-v010"] } ]
    clusterShow := fun _ => [some "edx-edxapp-v010", some "edx-edxapp-v011"]
    createUrl := fun c _ => "create-" ++ c
    enableUrl := fun a => "enable-" ++ a
    disableUrl := fun arg =>
      match arg with
      | NameArg.one s => "deactivate-" ++ s
      | NameArg.many _ => "deactivate-m"
    pollStatus := fun url _ =>
      if url = "enable-edx-edxapp-v011.json" then
        { status := "failed", log := "enable-boom" }
      else if url = "deactivate-edx-edxapp-v011.json" then
        { status := "failed", log := "disable-boom" }
      else
        { status := "completed", log := "" }
    asgLoadBalancers := fun a => Except.ok ["elb-" ++ a]
    edcForAmi := fun _ => "edc"
    asgsForEdc := fun _ => ["edx-edxapp-v010"]
    inService := fun _ _ => Except.ok ()
    healthyElbs := fun _ _ => Except.ok () }

/-- Counterexample to C8 as frozen: the activation of edx-edxapp-v011 fails
with the enabling BackendError (first conjunct), deploy does deactivate that
specific ASG only (third conjunct), but because that rollback deactivation
itself fails the error propagated to the caller is the disabling
BackendError — not a re-raise of the original activation error (second
conjunct; the two messages differ), refuting the unqualified "and then
re-raises the error". -/
theorem deploy_activate_rollback_error_masking :
    (activate_step activateDisableFailEnv "edx-edxapp-v011").1 =
      Except.error (Err.backend
        ("Failure while enabling ASG. Task Log: \n" ++ "enable-boom")) ∧
    (deploy activateDisableFailEnv "ami-1").1 =
      Except.error (Err.backend
        ("Failure while disabling ASG. Task Log: \n" ++ "disable-boom")) ∧
    disableCalls (deploy activateDisableFailEnv "ami-1").2 =
      [NameArg.one "edx-edxapp-v011"] :=
  ⟨rfl, rfl, rfl⟩

/-- C10: when the rollback triggered by an ELB health-gate failure itself
fails while deactivating one of the new ASGs, the remaining new ASGs of the
iteration receive no deactivation call and the deactivation error — not the
original health-gate error — propagates to the caller. -/
theorem deploy_rollback_disable_failure (env : Env) (ami_id : String)
    (ecs : List (String × List String)) (tD : List Ev)
    (newAsgs : List (String × String)) (tC : List Ev)
    (elbs : List String) (tA : List Ev) (e : Err)
    (done : List (String × String)) (c a : String)
    (rest : List (String × String)) (e2 : Err)
    (hdisc : clusters_for_asgs env (env.asgsForEdc (env.edcForAmi ami_id)) =
      (Except.ok ecs, tD))
    (hcreate : createLoop env ami_id (ecs.map Prod.fst) =
      (Except.ok newAsgs, tC))
    (hwis : env.inService (newAsgs.map Prod.snd) 300 = Except.ok ())
    (hact : activateLoop env newAsgs = (Except.ok elbs, tA))
    (helb : env.healthyElbs elbs 600 = Except.error e)
    (hsplit : newAsgs = done ++ (c, a) :: rest)
    (hdone : ∀ p ∈ done, disableOk env (NameArg.one p.2))
    (hfail : (disable_asg env (NameArg.one a)).1 = Except.error e2) :
    (deploy env ami_id).1 = Except.error e2 ∧
    disableCalls (deploy env ami_id).2 =
      done.map (fun p => NameArg.one p.2) ++ [NameArg.one a] := by
  have htD : tD = [Ev.clusterList] := by
    have h2 := congrArg Prod.snd hdisc
    simp [clusters_for_asgs] at h2
    exact h2.symm
  have hCd : disableCalls tC = [] := by
    have := (createLoop_calls_nil env ami_id (ecs.map Prod.fst)).1
    rw [hcreate] at this
    exact this
  obtain ⟨hAd, hAe⟩ := activateLoop_ok_calls env newAsgs elbs tA hact
  obtain ⟨h1, h2⟩ := rollbackLoop_failure env done c a rest e2 hdone hfail
  rw [← hsplit] at h1 h2
  rcases hroll : rollbackLoop env newAsgs with ⟨rres, rtr⟩
  rw [hroll] at h1 h2
  simp only at h1 h2
  subst h1
  constructor
  · simp only [deploy, hdisc, hcreate, hwis, hact, helb, hroll]
  · simp only [deploy, hdisc, hcreate, hwis, hact, helb, hroll]
    rw [htD]
    simp [disableCalls_append, hCd, hAd, h2, disableCalls_clusterList,
      disableCalls_waitInService, disableCalls_waitElbs, disableCalls_nil]

/-- Witness environment for C10: the two-cluster rollback scenario, but the
deactivation task of the first new ASG reports failed. -/
def rollbackFailEnv : Env :=
  { rollbackEnv with
    disableUrl := fun arg =>
      match arg with
      | NameArg.one s => "deactivate-" ++ s
      | NameArg.many _ => "deactivate-m"
    pollStatus := fun url _ =>
      if url = "deactivate-edx-edxapp-v011.json" then
        { status := "failed", log := "boom" }
      else
        { status := "completed", log := "" } }

/-- Witness for C10: the first rollback deactivation fails, the second new
ASG is never deactivated, and the deactivation BackendError (not the ELB
timeout) propagates. -/
theorem deploy_rollback_disable_failure_witness :
    (deploy rollbackFailEnv "ami-1").1 =
      Except.error (Err.backend
        ("Failure while disabling ASG. Task Log: \n" ++ "boom")) ∧
    disableCalls (deploy rollbackFailEnv "ami-1").2 =
      List.map (fun p => NameArg.one p.2)
        ([] : List (String × String)) ++ [NameArg.one "edx-edxapp-v011"] :=
  deploy_rollback_disable_failure rollbackFailEnv "ami-1"
    [("edx-edxapp", ["edx-edxapp-v010"]), ("edx-worker", ["edx-worker-v004"])]
    [Ev.clusterList]
    [("edx-edxapp", "edx-edxapp-v011"), ("edx-worker", "edx-worker-v005")]
    (createLoop rollbackFailEnv "ami-1" ["edx-edxapp", "edx-worker"]).2
    ["elb-edx-edxapp-v011", "elb-edx-worker-v005"]
    (activateLoop rollbackFailEnv
      [("edx-edxapp", "edx-edxapp-v011"), ("edx-worker", "edx-worker-v005")]).2
    (Err.timedOut "Timed out waiting for ELBs")
    [] "edx-edxapp" "edx-edxapp-v011" [("edx-worker", "edx-worker-v005")]
    (Err.backend ("Failure while disabling ASG. Task Log: \n" ++ "boom"))
    rfl rfl rfl rfl rfl rfl
    (by intro p hp; exact absurd hp (List.not_mem_nil p))
    rfl

/-- True exactly on a successful ec2 wait outcome. -/
def isOkU : Except Err Unit → Bool
  | Except.ok _ => true
  | Except.error _ => false

/-- Step function of the activation-ordering scan: the flag (first component)
becomes true once a wait_for_in_service call that the environment answers
successfully has been seen; the validity bit (second component) survives an
enable_asg request only while the flag is already true. -/
def gateStep (env : Env) (s : Bool × Bool) (e : Ev) : Bool × Bool :=
  match e with
  | Ev.waitInService ns => (s.1 || isOkU (env.inService ns 300), s.2)
  | Ev.enableReq _ => (s.1, s.2 && s.1)
  | _ => s

/-- Every enable_asg request of the trace is preceded by a
wait_for_in_service call that returned successfully. -/
def enableAfterGate (env : Env) (t : List Ev) : Prop :=
  (t.foldl (gateStep env) (false, true)).2 = true

theorem no_enable_of_enableCalls_nil (t : List Ev) (h : enableCalls t = []) :
    ∀ a, Ev.enableReq a ∉ t := by
  intro a hmem
  have hin : a ∈ enableCalls t := by
    rw [enableCalls]
    exact List.mem_filterMap.mpr ⟨_, hmem, rfl⟩
  rw [h] at hin
  exact absurd hin (List.not_mem_nil a)

theorem gateStep_no_enable (env : Env) :
    ∀ (t : List Ev) (b v : Bool), (∀ a, Ev.enableReq a ∉ t) →
      (t.foldl (gateStep env) (b, v)).2 = v
  | [], _, _, _ => rfl
  | e :: t, b, v, h => by
    have ht : ∀ a, Ev.enableReq a ∉ t :=
      fun a ha => h a (List.mem_cons_of_mem e ha)
    cases e with
    | waitInService ns =>
      simpa [gateStep] using gateStep_no_enable env t _ v ht
    | enableReq a => exact absurd (List.mem_cons_self _ t) (h a)
    | clusterList => simpa [gateStep] using gateStep_no_enable env t b v ht
    | clusterShowReq c => simpa [gateStep] using gateStep_no_enable env t b v ht
    | createReq c a => simpa [gateStep] using gateStep_no_enable env t b v ht
    | statusReq u => simpa [gateStep] using gateStep_no_enable env t b v ht
    | disableReq a => simpa [gateStep] using gateStep_no_enable env t b v ht
    | asgInfoReq a => simpa [gateStep] using gateStep_no_enable env t b v ht
    | waitElbs ns => simpa [gateStep] using gateStep_no_enable env t b v ht

theorem gateStep_flag_true (env : Env) :
    ∀ (t : List Ev), (t.foldl (gateStep env) (true, true)).2 = true
  | [] => rfl
  | e :: t => by
    cases e with
    | waitInService ns =>
      simpa [gateStep] using gateStep_flag_true env t
    | enableReq a => simpa [gateStep] using gateStep_flag_true env t
    | clusterList => simpa [gateStep] using gateStep_flag_true env t
    | clusterShowReq c => simpa [gateStep] using gateStep_flag_true env t
    | createReq c a => simpa [gateStep] using gateStep_flag_true env t
    | statusReq u => simpa [gateStep] using gateStep_flag_true env t
    | disableReq a => simpa [gateStep] using gateStep_flag_true env t
    | asgInfoReq a => simpa [gateStep] using gateStep_flag_true env t
    | waitElbs ns => simpa [gateStep] using gateStep_flag_true env t

theorem gate_ok_trace (env : Env) (ctr X : List Ev) (ns : List String)
    (u : Unit) (hc : enableCalls ctr = [])
    (hok : env.inService ns 300 = Except.ok u) :
    ((Ev.clusterList :: (ctr ++ Ev.waitInService ns :: X)).foldl
      (gateStep env) (false, true)).2 = true := by
  rw [List.foldl_cons]
  have h0 : gateStep env (false, true) Ev.clusterList = (false, true) := rfl
  rw [h0, List.foldl_append, List.foldl_cons]
  rcases hfold : ctr.foldl (gateStep env) (false, true) with ⟨b, v⟩
  have hv : v = true := by
    have := gateStep_no_enable env ctr false true
      (no_enable_of_enableCalls_nil ctr hc)
    rw [hfold] at this
    exact this
  subst hv
  have h1 : gateStep env (b, true) (Ev.waitInService ns) = (true, true) := by
    simp [gateStep, hok, isOkU]
  rw [h1]
  exact gateStep_flag_true env X

/-- C3: in every run of deploy, no activation request (enable_asg call) is
issued before the instance health gate — the ec2.wait_for_in_service call
over all newly created ASGs — has returned successfully: scanning the trace
in order, every enable request is preceded by a wait_for_in_service call that
the environment answered with success. -/
theorem deploy_enable_after_instance_gate (env : Env) (ami_id : String) :
    enableAfterGate env (deploy env ami_id).2 := by
  unfold enableAfterGate
  rcases hdc : clusters_for_asgs env (env.asgsForEdc (env.edcForAmi ami_id))
    with ⟨dres, dtr⟩
  have hdtr : dtr = [Ev.clusterList] := by
    have h2 := congrArg Prod.snd hdc
    simp [clusters_for_asgs] at h2
    exact h2.symm
  subst hdtr
  rcases dres with e | ecs
  · simp only [deploy, hdc]
    rfl
  · rcases hcl : createLoop env ami_id (ecs.map Prod.fst) with ⟨cres, ctr⟩
    have hctrE : enableCalls ctr = [] := by
      have := (createLoop_calls_nil env ami_id (ecs.map Prod.fst)).2
      rw [hcl] at this
      exact this
    rcases cres with e | newAsgs
    · simp only [deploy, hdc, hcl]
      exact gateStep_no_enable env _ false true (by
        intro a hmem
        rcases List.mem_cons.mp hmem with h | h
        · exact Ev.noConfusion h
        · exact no_enable_of_enableCalls_nil ctr hctrE a h)
    · rcases hwis : env.inService (newAsgs.map Prod.snd) 300 with e | u
      · simp only [deploy, hdc, hcl, hwis]
        refine gateStep_no_enable env _ false true (fun a hmem => ?_)
        simp only [List.cons_append, List.nil_append] at hmem
        rcases List.mem_cons.mp hmem with h | h
        · exact Ev.noConfusion h
        rcases List.mem_append.mp h with h | h
        · exact no_enable_of_enableCalls_nil ctr hctrE a h
        · exact Ev.noConfusion (List.mem_singleton.mp h)
      · rcases hal : activateLoop env newAsgs with ⟨ares, atr⟩
        rcases ares with e | elbs
        · simp only [deploy, hdc, hcl, hwis, hal]
          have := gate_ok_trace env ctr atr (newAsgs.map Prod.snd) u
            hctrE hwis
          simpa using this
        · rcases helb : env.healthyElbs elbs 600 with e | u2
          · rcases hroll : rollbackLoop env newAsgs with ⟨rres, rtr⟩
            rcases rres with e2 | u3 <;>
            · simp only [deploy, hdc, hcl, hwis, hal, helb, hroll]
              have := gate_ok_trace env ctr
                (atr ++ Ev.waitElbs elbs :: rtr)
                (newAsgs.map Prod.snd) u hctrE hwis
              simpa using this
          · rcases hret : retireLoop env ecs with ⟨rres, rtr⟩
            rcases rres with e2 | u3 <;>
            · simp only [deploy, hdc, hcl, hwis, hal, helb, hret]
              have := gate_ok_trace env ctr
                (atr ++ Ev.waitElbs elbs :: rtr)
                (newAsgs.map Prod.snd) u hctrE hwis
              simpa using this

/-- Environment of the end-to-end single-cluster scenario: one cluster
edx-edxapp with old ASG edx-edxapp-v010; creation produces edx-edxapp-v011;
every task completes and both health gates pass. -/
def scenarioEnv : Env :=
  { clusterListing :=
      [ { cluster := some "edx-edxapp",
          autoScalingGroups := some ["edx-edxapp-v010"] } ]
    clusterShow := fun _ => [some "edx-edxapp-v010", some "edx-edxapp-v011"]
    createUrl := fun c _ => "create-" ++ c
    enableUrl := fun a => "enable-" ++ a
    disableUrl := fun _ => "deactivate"
    pollStatus := fun _ _ => { status := "completed", log := "" }
    asgLoadBalancers := fun a => Except.ok ["elb-" ++ a]
    edcForAmi := fun _ => "edc"
    asgsForEdc := fun _ => ["edx-edxapp-v010"]
    inService := fun _ _ => Except.ok ()
    healthyElbs := fun _ _ => Except.ok () }

/-- The same scenario with two superseded old ASGs in the one cluster. -/
def scenarioTwoOldEnv : Env :=
  { scenarioEnv with
    clusterListing :=
      [ { cluster := some "edx-edxapp",
          autoScalingGroups :=
            some ["edx-edxapp-v009", "edx-edxapp-v010"] } ]
    clusterShow := fun _ =>
      [some "edx-edxapp-v009", some "edx-edxapp-v010",
        some "edx-edxapp-v011"] }

/-- C1 (evaluation at the scenario): the RETIRE_OLD loop iterates
`existing_clusters.iteritems()` and passes each cluster's whole old-ASG name
LIST to `disable_asg`, not each ASG name.  In the single-cluster scenario the
run does end successfully, but the single deactivation call carries the
one-element list as its argument — no call carries the plain ASG name
edx-edxapp-v010; and when the cluster has two superseded old ASGs there is
still only a single deactivation call, carrying both names at once, instead
of one call per old ASG name. -/
theorem deploy_retire_passes_list :
    (deploy scenarioEnv "ami-1").1 = Except.ok () ∧
    disableCalls (deploy scenarioEnv "ami-1").2 =
      [NameArg.many ["edx-edxapp-v010"]] ∧
    (deploy scenarioTwoOldEnv "ami-1").1 = Except.ok () ∧
    disableCalls (deploy scenarioTwoOldEnv "ami-1").2 =
      [NameArg.many ["edx-edxapp-v009", "edx-edxapp-v010"]] :=
  ⟨rfl, rfl, rfl, rfl⟩

end Tubular
